import Mathlib

/-!
Verification of the c-ares DNS resolver wrapper
(`src/core/ext/filters/client_channel/resolver/dns/c_ares/grpc_ares_wrapper.c`).

The development is a shallow embedding of the wrapper:

* the pure helpers (`strhtons`, the C `atoi` it calls, `htons`) are Lean
  functions; `htons` models the byte swap performed on a little-endian host,
  the platform on which host and network byte order differ and the byte-order
  behaviour of the code is observable;
* the state guarded by a request's mutex (`success`, `error`, the two output
  lists) is a structure `AresRequest`, and the bodies of the two completion
  callbacks `on_hostbyname_done_cb` / `on_srv_query_done_cb` are pure
  transformations of it (`on_hostbyname_done_core`, `on_srv_query_done_core`);
* the request lifecycle (pending-query refcount, issuance of sub-queries,
  completion callbacks arriving in any order, `grpc_ares_request_unref`
  scheduling `on_done` and destroying the request at the 1 → 0 transition)
  is a small-step semantics on `ReqState` driven by a list of `AresEvent`s;
* the locking behaviour of the two callbacks is transcribed as lists of
  `LockAction`s so that the mutex discipline can be checked per path.

Boundary dependencies are modelled at their documented interfaces:
`gpr_split_host_port` (from the repository's support library, not part of
this source file) is represented by passing its host/port output directly to
`resolve_address_ares_impl`; `ares_strerror` is an arbitrary fixed rendering
of a status code; `ares_parse_srv_reply` writes its output holder on every
path (`NULL` on all failure cases, per the DNS client library's contract),
and returns SRV ports as native (host-byte-order) integers.
-/

/-- The `ARES_SUCCESS` status code of the DNS client library. -/
def ARES_SUCCESS : Nat := 0

/-- Byte swap of a 16-bit value: `htons` as it behaves on a little-endian
host, where host and network byte order differ. -/
def htons (x : Nat) : Nat := (x % 256) * 256 + (x / 256) % 256

/-- Accumulating digit scan of C `atoi`: consume decimal digits, stop at the
first non-digit. -/
def atoiDigits : List Char → Int → Int
  | [], acc => acc
  | c :: cs, acc =>
    if c.isDigit then atoiDigits cs (acc * 10 + (c.toNat - '0'.toNat : Nat))
    else acc

/-- C `isspace` on the default locale, as `atoi` uses it. -/
def isCSpace (c : Char) : Bool :=
  c = ' ' || c = '\t' || c = '\n' || c = '\x0b' || c = '\x0c' || c = '\r'

/-- C `atoi` on a list of characters: skip leading whitespace, optional sign,
then decimal digits; a string with no leading digits yields 0. -/
def c_atoi_chars : List Char → Int
  | [] => 0
  | c :: cs =>
    if isCSpace c then c_atoi_chars cs
    else if c = '-' then - atoiDigits cs 0
    else if c = '+' then atoiDigits cs 0
    else if c.isDigit then atoiDigits (c :: cs) 0
    else 0

/-- C `atoi` on a string. -/
def c_atoi (s : String) : Int := c_atoi_chars s.data

/-- `strhtons` from the source: "http" maps to port 80, "https" to 443, any
other string goes through `atoi` and is truncated to `unsigned short`; the
result is produced by `htons` in all cases. -/
def strhtons (port : String) : Nat :=
  if port = "http" then htons 80
  else if port = "https" then htons 443
  else htons ((c_atoi port % 65536).toNat)

/-- Modelled from the spec: `ares_strerror`, the DNS client library's textual
status description. Its exact text is third-party; the model renders the
numeric status. -/
def ares_strerror (status : Nat) : String := "ares status " ++ toString status

/-- The error message both completion callbacks build on a failed query. -/
def ares_error_msg (status : Nat) : String :=
  "C-ares status is not ARES_SUCCESS: " ++ ares_strerror status

/-- Keys usable with `grpc_error_set_str`; the wrapper only uses
`GRPC_ERROR_STR_TARGET_ADDRESS`. -/
inductive ErrStrKey
  | targetAddress
deriving DecidableEq

/-- The `grpc_error` values this file builds: the no-error sentinel
`GRPC_ERROR_NONE`, a fresh error created from a message string, an error
with a child attached by `grpc_error_add_child`, and an error with a string
attachment added by `grpc_error_set_str`. -/
inductive GrpcError
  | none
  | createFromString (msg : String)
  | withChild (root : GrpcError) (child : GrpcError)
  | withStr (base : GrpcError) (key : ErrStrKey) (value : String)
deriving DecidableEq

/-- Address families stamped into resolved addresses. -/
inductive AddrFamily
  | inet
  | inet6
deriving DecidableEq

/-- `sizeof(struct sockaddr_in)` on the modelled platform. -/
def sockaddr_in_len : Nat := 16

/-- `sizeof(struct sockaddr_in6)` on the modelled platform. -/
def sockaddr_in6_len : Nat := 28

/-- One entry of a `grpc_resolved_addresses` list: the recorded length, and
the fields the wrapper stamps into the `sockaddr` bytes (family, port, raw
address bytes copied from the `hostent`). -/
structure ResolvedAddress where
  len : Nat
  family : AddrFamily
  port : Nat
  rawAddr : List Nat
deriving DecidableEq

/-- One entry of a `grpc_lb_addresses` list, as filled in by
`grpc_lb_addresses_set_address`. -/
structure LBAddress where
  len : Nat
  family : AddrFamily
  port : Nat
  rawAddr : List Nat
  is_balancer : Bool
  balancer_name : Option String
  user_data : Option Unit
deriving DecidableEq

/-- The part of a `struct hostent` the callback reads: the address family
`h_addrtype` and the `h_addr_list` of raw addresses. -/
structure Hostent where
  h_addrtype : AddrFamily
  h_addr_list : List (List Nat)
deriving DecidableEq

/-- `grpc_ares_hostbyname_request`: parent pointer aside, the host copy, the
port to stamp into each resulting sockaddr, and the balancer flag. -/
structure HostbynameRequest where
  host : String
  port : Nat
  is_balancer : Bool
deriving DecidableEq

/-- One plain-mode address entry, as the success branch of
`on_hostbyname_done_cb` constructs it for one `h_addr_list` element. -/
def mkResolvedAddress (hr : HostbynameRequest) (fam : AddrFamily)
    (bytes : List Nat) : ResolvedAddress :=
  if fam = AddrFamily.inet6 then
    { len := sockaddr_in6_len, family := fam, port := hr.port, rawAddr := bytes }
  else
    { len := sockaddr_in_len, family := fam, port := hr.port, rawAddr := bytes }

/-- One load-balancer-mode address entry, as the success branch of
`on_hostbyname_done_cb` passes it to `grpc_lb_addresses_set_address`. -/
def mkLBAddress (hr : HostbynameRequest) (fam : AddrFamily)
    (bytes : List Nat) : LBAddress :=
  if fam = AddrFamily.inet6 then
    { len := sockaddr_in6_len, family := fam, port := hr.port, rawAddr := bytes,
      is_balancer := hr.is_balancer,
      balancer_name := if hr.is_balancer then some hr.host else Option.none,
      user_data := Option.none }
  else
    { len := sockaddr_in_len, family := fam, port := hr.port, rawAddr := bytes,
      is_balancer := hr.is_balancer,
      balancer_name := if hr.is_balancer then some hr.host else Option.none,
      user_data := Option.none }

/-- The mutex-guarded state of a `grpc_ares_request` together with the
caller's output slot: the output-mode flag, the success flag, the aggregated
error, and the two possible output lists (`Option.none` models the caller's
slot still holding `NULL`). -/
structure AresRequest where
  lb_addrs_out : Bool
  success : Bool
  error : GrpcError
  plain_out : Option (List ResolvedAddress)
  lb_out : Option (List LBAddress)
deriving DecidableEq

/-- The body of `on_hostbyname_done_cb` as a transformation of the guarded
state: on `ARES_SUCCESS`, release the old error, set the no-error sentinel
and the success flag, allocate the output list on first use and append one
entry per `h_addr_list` element; on failure with the success flag still
false, build the c-ares error and link it into the chain (as sole error if
the chain was empty, else as a new root with the prior chain as child); on
failure after a success, change nothing. -/
def on_hostbyname_done_core (r : AresRequest) (hr : HostbynameRequest)
    (status : Nat) (hostent : Hostent) : AresRequest :=
  if status = ARES_SUCCESS then
    let r1 : AresRequest := { r with error := GrpcError.none, success := true }
    if r1.lb_addrs_out then
      let cur := r1.lb_out.getD []
      let grown := cur ++ hostent.h_addr_list.map (mkLBAddress hr hostent.h_addrtype)
      { r1 with lb_out := some grown }
    else
      let cur := r1.plain_out.getD []
      let grown := cur ++ hostent.h_addr_list.map (mkResolvedAddress hr hostent.h_addrtype)
      { r1 with plain_out := some grown }
  else if r.success = false then
    let error := GrpcError.createFromString (ares_error_msg status)
    if r.error = GrpcError.none then { r with error := error }
    else { r with error := GrpcError.withChild error r.error }
  else
    r

/-- One record of a parsed SRV reply, as the DNS client library's parser
returns it: target host and port, the port a native (host-byte-order)
integer. -/
structure SrvRecord where
  host : String
  port : Nat
deriving DecidableEq

/-- The outcome of `ares_parse_srv_reply`: its status, and the value it
wrote into the caller's reply holder (`Option.none` models `NULL`, which the
parser writes on all its failure cases per the library's contract). -/
structure SrvParseOutcome where
  parse_status : Nat
  reply : Option (List SrvRecord)
deriving DecidableEq

/-- The observable actions of the SRV callback's per-record loop: creating
and issuing one hostname sub-query, and restarting the event driver. -/
inductive SrvAction
  | spawn (family : AddrFamily) (hr : HostbynameRequest)
  | startDriver
deriving DecidableEq

/-- One iteration of the SRV callback's loop over `reply`: an IPv6
balancer-marked hostname sub-query if IPv6 loopback is available, an IPv4
one unconditionally, then `grpc_ares_ev_driver_start`. The record's port is
passed through unchanged, exactly as `create_hostbyname_request(r,
srv_it->host, srv_it->port, true)` does. -/
def srvLoopBody (ipv6Available : Bool) (srv_it : SrvRecord) : List SrvAction :=
  (if ipv6Available then
     [SrvAction.spawn AddrFamily.inet6
        { host := srv_it.host, port := srv_it.port, is_balancer := true }]
   else [])
  ++ [SrvAction.spawn AddrFamily.inet
        { host := srv_it.host, port := srv_it.port, is_balancer := true },
      SrvAction.startDriver]

/-- The SRV callback's loop over the whole parsed reply, in parser order. -/
def srvLoop (ipv6Available : Bool) : List SrvRecord → List SrvAction
  | [] => []
  | srv_it :: rest => srvLoopBody ipv6Available srv_it ++ srvLoop ipv6Available rest

/-- Result of running `on_srv_query_done_cb`'s body: the guarded state
afterwards, the spawn/driver-start actions performed (empty unless the query
succeeded and the reply parsed), and the argument passed to `ares_free_data`
if it was called. -/
structure SrvCbOut where
  r : AresRequest
  actions : List SrvAction
  freed : Option (List SrvRecord)
deriving DecidableEq

/-- The body of `on_srv_query_done_cb`: on `ARES_SUCCESS`, parse the reply;
on a successful parse run the per-record loop; then free the reply holder if
it is non-`NULL`. On a failed query with the success flag still false, chain
the c-ares error exactly as the hostname callback does; on a failed query
after a success, change nothing. A failed parse spawns nothing and chains no
error. -/
def on_srv_query_done_core (r : AresRequest) (ipv6Available : Bool)
    (status : Nat) (parse : SrvParseOutcome) : SrvCbOut :=
  if status = ARES_SUCCESS then
    let reply := parse.reply
    let actions :=
      if parse.parse_status = ARES_SUCCESS then srvLoop ipv6Available (reply.getD [])
      else []
    { r := r, actions := actions,
      freed := if reply.isSome then reply else Option.none }
  else if r.success = false then
    let error := GrpcError.createFromString (ares_error_msg status)
    if r.error = GrpcError.none then
      { r := { r with error := error }, actions := [], freed := Option.none }
    else
      { r := { r with error := GrpcError.withChild error r.error },
        actions := [], freed := Option.none }
  else
    { r := r, actions := [], freed := Option.none }

/-- The kind of one issued, not-yet-completed sub-query of a request: an
address-record query carrying its `grpc_ares_hostbyname_request`, or the
SRV query carrying its service name. -/
inductive QueryKind
  | hostname (family : AddrFamily) (hr : HostbynameRequest)
  | srv (serviceName : String)
deriving DecidableEq

/-- Whether a query is an address-record (hostname) query. -/
def QueryKind.isHostname : QueryKind → Bool
  | QueryKind.hostname _ _ => true
  | QueryKind.srv _ => false

/-- The full state of one in-flight `grpc_ares_request`: the mutex-guarded
core, the `pending_queries` refcount, the multiset (as a list) of issued but
not yet completed sub-queries, whether the creator's initial reference from
`gpr_ref_init(_, 1)` is still held, the list of errors `on_done` has been
scheduled with, counters of `gpr_mu_destroy` / `grpc_ares_ev_driver_destroy`
/ `gpr_free(r)` calls, and a count of hostname sub-queries that completed
with `ARES_SUCCESS`. -/
structure ReqState where
  core : AresRequest
  pending : Nat
  outstanding : List QueryKind
  creatorRef : Bool
  onDoneCalls : List GrpcError
  muDestroyed : Nat
  evDriverDestroyed : Nat
  freedReq : Nat
  hnSuccesses : Nat
deriving DecidableEq

/-- `grpc_ares_request_unref`: decrement `pending_queries`; at the 1 → 0
transition, schedule `on_done` with the aggregated error, destroy the mutex,
destroy the event driver and free the request. -/
def grpc_ares_request_unref (s : ReqState) : ReqState :=
  if s.pending = 1 then
    { s with pending := 0,
             onDoneCalls := s.onDoneCalls ++ [s.core.error],
             muDestroyed := s.muDestroyed + 1,
             evDriverDestroyed := s.evDriverDestroyed + 1,
             freedReq := s.freedReq + 1 }
  else
    { s with pending := s.pending - 1 }

/-- Issue one sub-query: increment `pending_queries` (the
`grpc_ares_request_ref` inside `create_hostbyname_request`, or the explicit
one before `ares_query`) and hand the query to the library. -/
def issueQuery (s : ReqState) (q : QueryKind) : ReqState :=
  { s with pending := s.pending + 1, outstanding := s.outstanding ++ [q] }

/-- The sub-queries `resolve_address_ares_impl` issues synchronously: an
IPv6 hostname query if IPv6 loopback is available, an IPv4 hostname query
unconditionally (both with port `strhtons(port)` and `is_balancer` false),
and, in load-balancer output mode, one SRV query for
`"_grpclb._tcp." ++ host`. -/
def initialQueries (host port : String) (is_lb_addrs_out ipv6Available : Bool) :
    List QueryKind :=
  (if ipv6Available then
     [QueryKind.hostname AddrFamily.inet6
        { host := host, port := strhtons port, is_balancer := false }]
   else [])
  ++ [QueryKind.hostname AddrFamily.inet
        { host := host, port := strhtons port, is_balancer := false }]
  ++ (if is_lb_addrs_out then [QueryKind.srv ("_grpclb._tcp." ++ host)] else [])

/-- The request state right after the synchronous part of
`resolve_address_ares_impl`: a fresh request (success false, error the
sentinel, both output slots `NULL`), `pending_queries` initialised to 1 for
the creator, then each initial sub-query issued in order. -/
def resolveInit (host port : String) (is_lb_addrs_out ipv6Available : Bool) :
    ReqState :=
  (initialQueries host port is_lb_addrs_out ipv6Available).foldl issueQuery
    { core := { lb_addrs_out := is_lb_addrs_out, success := false,
                error := GrpcError.none, plain_out := Option.none,
                lb_out := Option.none },
      pending := 1, outstanding := [], creatorRef := true, onDoneCalls := [],
      muDestroyed := 0, evDriverDestroyed := 0, freedReq := 0, hnSuccesses := 0 }

/-- The asynchronous events that can act on an in-flight request: the
creator releasing its initial reference (the `grpc_ares_request_unref` at
the end of `resolve_address_ares_impl`), a hostname sub-query's completion
callback, or the SRV query's completion callback. -/
inductive AresEvent
  | creatorUnref
  | hostnameDone (idx status : Nat) (hostent : Hostent)
  | srvDone (idx status : Nat) (parse : SrvParseOutcome) (ipv6Available : Bool)
deriving DecidableEq

/-- The hostname sub-queries created and issued by a list of SRV-loop
actions. -/
def spawnsOf (acts : List SrvAction) : List QueryKind :=
  acts.filterMap (fun a =>
    match a with
    | SrvAction.spawn fam hr => some (QueryKind.hostname fam hr)
    | SrvAction.startDriver => Option.none)

/-- One step of the request lifecycle. `Option.none` marks an impossible
event (completing a query that is not outstanding, or a second creator
release). A hostname completion folds its result into the guarded state,
removes the query and decrements the count; an SRV completion additionally
issues the sub-queries its loop spawns (each incrementing the count) before
its own decrement, exactly as `on_srv_query_done_cb` runs
`create_hostbyname_request` before `grpc_ares_request_unref`. -/
def stepEvent (s : ReqState) : AresEvent → Option ReqState
  | AresEvent.creatorUnref =>
    if s.creatorRef then
      some (grpc_ares_request_unref { s with creatorRef := false })
    else Option.none
  | AresEvent.hostnameDone idx status hostent =>
    match s.outstanding[idx]? with
    | some (QueryKind.hostname _fam hr) =>
      let s1 : ReqState :=
        { s with core := on_hostbyname_done_core s.core hr status hostent,
                 outstanding := s.outstanding.eraseIdx idx,
                 hnSuccesses :=
                   s.hnSuccesses + (if status = ARES_SUCCESS then 1 else 0) }
      some (grpc_ares_request_unref s1)
    | _ => Option.none
  | AresEvent.srvDone idx status parse ipv6Available =>
    match s.outstanding[idx]? with
    | some (QueryKind.srv _name) =>
      let out := on_srv_query_done_core s.core ipv6Available status parse
      let s1 : ReqState :=
        { s with core := out.r, outstanding := s.outstanding.eraseIdx idx }
      let s2 := (spawnsOf out.actions).foldl issueQuery s1
      some (grpc_ares_request_unref s2)
    | _ => Option.none

/-- Run a list of lifecycle events from a state. -/
def runEvents : ReqState → List AresEvent → Option ReqState
  | s, [] => some s
  | s, e :: es =>
    match stepEvent s e with
    | some s' => runEvents s' es
    | Option.none => Option.none

/-- Outcome of `grpc_ares_ev_driver_create`. -/
inductive DriverCreate
  | ok
  | fail (err : GrpcError)
deriving DecidableEq

/-- Outcome of the synchronous part of a top-level resolve call: the
completion callback scheduled immediately with a parse error (no request
created, no query issued); setup aborted after a logged driver-creation
failure (no request created, no callback scheduled); or a request started. -/
inductive ResolveResult
  | syncFail (err : GrpcError)
  | aborted
  | started (s : ReqState)
deriving DecidableEq

/-- `resolve_address_ares_impl`, with the output of `gpr_split_host_port`
(a support-library routine outside this source file) supplied as `hostOpt`
and `portOpt`: a `NULL` host fails synchronously with "unparseable
host:port" carrying the name; a `NULL` port falls back to the default port,
or fails synchronously with "no port in name" carrying the name when no
default was supplied; a driver-creation failure is logged and aborts; and
otherwise the request is created and its initial sub-queries issued. -/
def resolve_address_ares_impl (name : String)
    (hostOpt portOpt default_port : Option String) (driver : DriverCreate)
    (is_lb_addrs_out ipv6Available : Bool) : ResolveResult :=
  match hostOpt with
  | Option.none =>
    ResolveResult.syncFail
      (GrpcError.withStr (GrpcError.createFromString "unparseable host:port")
        ErrStrKey.targetAddress name)
  | some host =>
    let portRes : Option String :=
      match portOpt with
      | Option.none => default_port
      | some p => some p
    match portRes with
    | Option.none =>
      ResolveResult.syncFail
        (GrpcError.withStr (GrpcError.createFromString "no port in name")
          ErrStrKey.targetAddress name)
    | some port =>
      match driver with
      | DriverCreate.fail _err => ResolveResult.aborted
      | DriverCreate.ok =>
        ResolveResult.started (resolveInit host port is_lb_addrs_out ipv6Available)

/-- Total number of times the caller's completion callback has been invoked
for one resolve call, after the given lifecycle events: once immediately on
a synchronous parse failure; never when driver creation failed; for a
started request, the number of `on_done` schedulings so far. -/
def resolveCallbackTotal (res : ResolveResult) (es : List AresEvent) :
    Option Nat :=
  match res with
  | ResolveResult.syncFail _ => some 1
  | ResolveResult.aborted => some 0
  | ResolveResult.started s => (runEvents s es).map (fun s' => s'.onDoneCalls.length)

/-- Atomic actions relevant to the mutex discipline of the completion
callbacks: acquiring and releasing the request's mutex, reads and writes of
the guarded `success` and `error` fields, and anything else. -/
inductive LockAction
  | lock
  | unlock
  | readSuccess
  | writeSuccess
  | readError
  | writeError
  | other
deriving DecidableEq

/-- Whether every access to `success` or `error` in the action list happens
while the mutex is held (`depth` locks currently held). -/
def lockOk : Nat → List LockAction → Bool
  | _, [] => true
  | depth, a :: rest =>
    match a with
    | LockAction.lock => lockOk (depth + 1) rest
    | LockAction.unlock => decide (0 < depth) && lockOk (depth - 1) rest
    | LockAction.other => lockOk depth rest
    | _ => decide (0 < depth) && lockOk depth rest

/-- The action sequence of `on_hostbyname_done_cb`, by path:
`gpr_mu_lock`; on success, release the old error, write the sentinel, set
the success flag and build addresses; on failure, read the success flag and,
if it is false, build the error, read the chain and write it; then
`gpr_mu_unlock` and `destroy_hostbyname_request`. -/
def on_hostbyname_done_actions (statusIsSuccess successFlag : Bool) :
    List LockAction :=
  [LockAction.lock]
  ++ (if statusIsSuccess then
        [LockAction.readError, LockAction.writeError, LockAction.writeSuccess,
         LockAction.other]
      else
        [LockAction.readSuccess]
        ++ (if successFlag then []
            else [LockAction.other, LockAction.readError, LockAction.writeError]))
  ++ [LockAction.unlock, LockAction.other]

/-- The action sequence of `on_srv_query_done_cb`, by path: on success,
parse, spawn and free (no guarded access); on failure, read the success flag
and, if it is false, build the error, read the chain and write it; then
`grpc_ares_request_unref`. The source acquires no mutex anywhere in this
callback. -/
def on_srv_query_done_actions (statusIsSuccess successFlag : Bool) :
    List LockAction :=
  (if statusIsSuccess then
     [LockAction.other]
   else
     [LockAction.readSuccess]
     ++ (if successFlag then []
         else [LockAction.other, LockAction.readError, LockAction.writeError]))
  ++ [LockAction.other]

/-- Whether the output slot selected by the request's output mode has been
populated (the caller's pointer is no longer `NULL`). -/
def slotPopulated (r : AresRequest) : Bool :=
  if r.lb_addrs_out then r.lb_out.isSome else r.plain_out.isSome

/-- Whether the output slot for the mode NOT selected is untouched. -/
def offSlotEmpty (r : AresRequest) : Bool :=
  if r.lb_addrs_out then r.plain_out.isNone else r.lb_out.isNone

/-- The lifecycle invariant of an in-flight request: the pending count is
one per outstanding sub-query plus one for the creator's reference while it
is held; a set success flag comes with the no-error sentinel; a still-unset
success flag with the sentinel still in place means some hostname sub-query
is still outstanding; the success flag is set exactly when some hostname
sub-query has succeeded; the mode's output slot is populated exactly when
the success flag is set and the other mode's slot is never touched; and
`on_done` scheduling and the three teardown steps have happened exactly once
if the count has reached zero and never otherwise. -/
def ReqInv (s : ReqState) : Prop :=
  s.pending = s.outstanding.length + (if s.creatorRef then 1 else 0)
  ∧ (s.core.success = true → s.core.error = GrpcError.none)
  ∧ (s.core.success = false → s.core.error = GrpcError.none →
      1 ≤ s.outstanding.countP QueryKind.isHostname)
  ∧ (s.core.success = true ↔ 1 ≤ s.hnSuccesses)
  ∧ slotPopulated s.core = s.core.success
  ∧ offSlotEmpty s.core = true
  ∧ (if s.pending = 0 then
      s.onDoneCalls = [s.core.error] ∧ s.muDestroyed = 1
        ∧ s.evDriverDestroyed = 1 ∧ s.freedReq = 1
    else
      s.onDoneCalls = [] ∧ s.muDestroyed = 0
        ∧ s.evDriverDestroyed = 0 ∧ s.freedReq = 0)

/-- A fresh load-balancer-mode request state, used to evaluate the callbacks
at concrete inputs. -/
def sampleLbRequest : AresRequest :=
  { lb_addrs_out := true, success := false, error := GrpcError.none,
    plain_out := Option.none, lb_out := Option.none }

/-- The error chaining both callbacks perform on a failed query while the
success flag is still false: the fresh c-ares error becomes the sole error
if the chain was empty, else the new root with the prior chain as child. -/
def fold_failure_error (status : Nat) (prior : GrpcError) : GrpcError :=
  if prior = GrpcError.none then GrpcError.createFromString (ares_error_msg status)
  else GrpcError.withChild (GrpcError.createFromString (ares_error_msg status)) prior

theorem length_eraseIdx_getElem {α : Type} :
    ∀ (l : List α) (i : Nat) (a : α), l[i]? = some a →
      (l.eraseIdx i).length + 1 = l.length
  | [], i, a, h => by simp at h
  | _b :: bs, 0, a, _h => by simp [List.eraseIdx]
  | b :: bs, i + 1, a, h => by
    simp only [List.getElem?_cons_succ] at h
    simp only [List.eraseIdx, List.length_cons]
    rw [← length_eraseIdx_getElem bs i a h]

theorem countP_eraseIdx_getElem {α : Type} (p : α → Bool) :
    ∀ (l : List α) (i : Nat) (a : α), l[i]? = some a → p a = false →
      (l.eraseIdx i).countP p = l.countP p
  | [], i, a, h, _ => by simp at h
  | b :: bs, 0, a, h, hp => by
    simp only [List.getElem?_cons_zero, Option.some.injEq] at h
    subst h
    simp [List.eraseIdx, List.countP_cons, hp]
  | b :: bs, i + 1, a, h, hp => by
    simp only [List.getElem?_cons_succ] at h
    simp only [List.eraseIdx, List.countP_cons,
      countP_eraseIdx_getElem p bs i a h hp]

theorem foldl_issueQuery_pending :
    ∀ (qs : List QueryKind) (s : ReqState),
      (qs.foldl issueQuery s).pending = s.pending + qs.length
  | [], s => by simp
  | q :: qs, s => by
    simp only [List.foldl_cons, foldl_issueQuery_pending qs, issueQuery,
      List.length_cons]
    omega

theorem foldl_issueQuery_outstanding :
    ∀ (qs : List QueryKind) (s : ReqState),
      (qs.foldl issueQuery s).outstanding = s.outstanding ++ qs
  | [], s => by simp
  | q :: qs, s => by
    simp only [List.foldl_cons, foldl_issueQuery_outstanding qs, issueQuery]
    simp

theorem foldl_issueQuery_fields :
    ∀ (qs : List QueryKind) (s : ReqState),
      (qs.foldl issueQuery s).core = s.core
      ∧ (qs.foldl issueQuery s).creatorRef = s.creatorRef
      ∧ (qs.foldl issueQuery s).onDoneCalls = s.onDoneCalls
      ∧ (qs.foldl issueQuery s).muDestroyed = s.muDestroyed
      ∧ (qs.foldl issueQuery s).evDriverDestroyed = s.evDriverDestroyed
      ∧ (qs.foldl issueQuery s).freedReq = s.freedReq
      ∧ (qs.foldl issueQuery s).hnSuccesses = s.hnSuccesses
  | [], s => by simp
  | q :: qs, s => by
    simp [List.foldl_cons, foldl_issueQuery_fields qs, issueQuery]

theorem chain_ne_none (status : Nat) (e : GrpcError) :
    ¬fold_failure_error status e = GrpcError.none := by
  unfold fold_failure_error
  split <;> simp

theorem hn_core_success_facts (r : AresRequest) (hr : HostbynameRequest)
    (he : Hostent) :
    (on_hostbyname_done_core r hr ARES_SUCCESS he).success = true
    ∧ (on_hostbyname_done_core r hr ARES_SUCCESS he).error = GrpcError.none
    ∧ (on_hostbyname_done_core r hr ARES_SUCCESS he).lb_addrs_out = r.lb_addrs_out
    ∧ slotPopulated (on_hostbyname_done_core r hr ARES_SUCCESS he) = true
    ∧ offSlotEmpty (on_hostbyname_done_core r hr ARES_SUCCESS he) = offSlotEmpty r := by
  by_cases hlb : r.lb_addrs_out = true <;>
    simp [on_hostbyname_done_core, slotPopulated, offSlotEmpty, hlb, ARES_SUCCESS]

theorem hn_core_fail_nosucc (r : AresRequest) (hr : HostbynameRequest)
    (status : Nat) (he : Hostent) (hst : ¬status = ARES_SUCCESS)
    (hs : r.success = false) :
    on_hostbyname_done_core r hr status he =
      { r with error := fold_failure_error status r.error } := by
  simp only [on_hostbyname_done_core, if_neg hst, if_pos hs, fold_failure_error]
  split <;> rfl

theorem hn_core_fail_succ (r : AresRequest) (hr : HostbynameRequest)
    (status : Nat) (he : Hostent) (hst : ¬status = ARES_SUCCESS)
    (hs : r.success = true) :
    on_hostbyname_done_core r hr status he = r := by
  have hs' : ¬r.success = false := by rw [hs]; simp
  simp only [on_hostbyname_done_core, if_neg hst, if_neg hs']

theorem srv_core_of_success (r : AresRequest) (v6 : Bool) (parse : SrvParseOutcome) :
    on_srv_query_done_core r v6 ARES_SUCCESS parse =
      { r := r,
        actions :=
          if parse.parse_status = ARES_SUCCESS then srvLoop v6 (parse.reply.getD [])
          else [],
        freed := if parse.reply.isSome then parse.reply else Option.none } := by
  simp [on_srv_query_done_core]

theorem srv_core_fail_nosucc (r : AresRequest) (v6 : Bool) (status : Nat)
    (parse : SrvParseOutcome) (hst : ¬status = ARES_SUCCESS)
    (hs : r.success = false) :
    on_srv_query_done_core r v6 status parse =
      { r := { r with error := fold_failure_error status r.error },
        actions := [], freed := Option.none } := by
  simp only [on_srv_query_done_core, if_neg hst, if_pos hs, fold_failure_error]
  split <;> rfl

theorem srv_core_fail_succ (r : AresRequest) (v6 : Bool) (status : Nat)
    (parse : SrvParseOutcome) (hst : ¬status = ARES_SUCCESS)
    (hs : r.success = true) :
    on_srv_query_done_core r v6 status parse =
      { r := r, actions := [], freed := Option.none } := by
  have hs' : ¬r.success = false := by rw [hs]; simp
  simp only [on_srv_query_done_core, if_neg hst, if_neg hs']

theorem ReqInv_unref (s : ReqState)
    (h1 : s.pending = s.outstanding.length + (if s.creatorRef then 1 else 0) + 1)
    (h2 : s.core.success = true → s.core.error = GrpcError.none)
    (h3 : s.core.success = false → s.core.error = GrpcError.none →
      1 ≤ s.outstanding.countP QueryKind.isHostname)
    (h4 : s.core.success = true ↔ 1 ≤ s.hnSuccesses)
    (h5 : slotPopulated s.core = s.core.success)
    (h6 : offSlotEmpty s.core = true)
    (h7 : s.onDoneCalls = [] ∧ s.muDestroyed = 0 ∧ s.evDriverDestroyed = 0
      ∧ s.freedReq = 0) :
    ReqInv (grpc_ares_request_unref s) := by
  by_cases hp : s.pending = 1
  · have hcr : s.creatorRef = false := by
      by_cases hcr : s.creatorRef = true
      · rw [if_pos hcr] at h1; omega
      · simpa using hcr
    have hout : s.outstanding = [] := by
      rw [if_neg (by simp [hcr])] at h1
      have : s.outstanding.length = 0 := by omega
      exact List.length_eq_zero.mp this
    simp only [ReqInv, grpc_ares_request_unref, if_pos hp]
    refine ⟨?_, h2, h3, h4, h5, h6, ?_⟩
    · simp [hout, hcr]
    · simp [h7.1, h7.2.1, h7.2.2.1, h7.2.2.2]
  · have hpos : 1 ≤ s.pending := by omega
    simp only [ReqInv, grpc_ares_request_unref, if_neg hp]
    have hpne : ¬(s.pending - 1) = 0 := by omega
    refine ⟨?_, h2, h3, h4, h5, h6, ?_⟩
    · omega
    · rw [if_neg hpne]
      exact h7

theorem foldl_issueQuery_core (qs : List QueryKind) (s : ReqState) :
    (qs.foldl issueQuery s).core = s.core := (foldl_issueQuery_fields qs s).1

theorem foldl_issueQuery_creatorRef (qs : List QueryKind) (s : ReqState) :
    (qs.foldl issueQuery s).creatorRef = s.creatorRef :=
  (foldl_issueQuery_fields qs s).2.1

theorem foldl_issueQuery_onDoneCalls (qs : List QueryKind) (s : ReqState) :
    (qs.foldl issueQuery s).onDoneCalls = s.onDoneCalls :=
  (foldl_issueQuery_fields qs s).2.2.1

theorem foldl_issueQuery_muDestroyed (qs : List QueryKind) (s : ReqState) :
    (qs.foldl issueQuery s).muDestroyed = s.muDestroyed :=
  (foldl_issueQuery_fields qs s).2.2.2.1

theorem foldl_issueQuery_evDriverDestroyed (qs : List QueryKind) (s : ReqState) :
    (qs.foldl issueQuery s).evDriverDestroyed = s.evDriverDestroyed :=
  (foldl_issueQuery_fields qs s).2.2.2.2.1

theorem foldl_issueQuery_freedReq (qs : List QueryKind) (s : ReqState) :
    (qs.foldl issueQuery s).freedReq = s.freedReq :=
  (foldl_issueQuery_fields qs s).2.2.2.2.2.1

theorem foldl_issueQuery_hnSuccesses (qs : List QueryKind) (s : ReqState) :
    (qs.foldl issueQuery s).hnSuccesses = s.hnSuccesses :=
  (foldl_issueQuery_fields qs s).2.2.2.2.2.2

theorem stepEvent_inv {s s' : ReqState} {e : AresEvent}
    (hinv : ReqInv s) (hstep : stepEvent s e = some s') : ReqInv s' := by
  obtain ⟨h1, h2, h3, h4, h5, h6, h7⟩ := hinv
  cases e with
  | creatorUnref =>
    by_cases hc : s.creatorRef = true
    · simp only [stepEvent, hc, if_true, Option.some.injEq] at hstep
      subst hstep
      have hpne : ¬s.pending = 0 := by rw [h1, if_pos hc]; omega
      rw [if_neg hpne] at h7
      refine ReqInv_unref _ ?_ h2 h3 h4 h5 h6 h7
      rw [if_pos hc] at h1
      simpa using h1
    · simp only [stepEvent, hc, if_false] at hstep
      exact Option.noConfusion hstep
  | hostnameDone idx status he =>
    cases hq : s.outstanding[idx]? with
    | none =>
      simp only [stepEvent, hq] at hstep
      exact Option.noConfusion hstep
    | some q =>
      cases q with
      | srv nm =>
        simp only [stepEvent, hq] at hstep
        exact Option.noConfusion hstep
      | hostname fam hr =>
        simp only [stepEvent, hq, Option.some.injEq] at hstep
        subst hstep
        have hl := length_eraseIdx_getElem s.outstanding idx _ hq
        have hpne : ¬s.pending = 0 := by
          by_cases hcr : s.creatorRef = true <;> simp [hcr] at h1 <;> omega
        rw [if_neg hpne] at h7
        by_cases hst : status = ARES_SUCCESS
        · subst hst
          obtain ⟨hsu, herr, _hlb, hslot, hoff⟩ := hn_core_success_facts s.core hr he
          apply ReqInv_unref
          · by_cases hcr : s.creatorRef = true <;> simp [hcr] at h1 ⊢ <;> omega
          · intro _
            exact herr
          · intro hfalse _
            rw [hsu] at hfalse
            exact Bool.noConfusion hfalse
          · simp only [hsu]
            simp [ARES_SUCCESS]
          · rw [hslot, hsu]
          · rw [hoff]
            exact h6
          · exact h7
        · by_cases hsucc : s.core.success = false
          · have hfold := hn_core_fail_nosucc s.core hr status he hst hsucc
            have hsu : (on_hostbyname_done_core s.core hr status he).success = false := by
              rw [hfold]
              exact hsucc
            have herrne :
                ¬(on_hostbyname_done_core s.core hr status he).error = GrpcError.none := by
              rw [hfold]
              exact chain_ne_none status s.core.error
            have hslot : slotPopulated (on_hostbyname_done_core s.core hr status he)
                = slotPopulated s.core := by
              rw [hfold]
              rfl
            have hoff : offSlotEmpty (on_hostbyname_done_core s.core hr status he)
                = offSlotEmpty s.core := by
              rw [hfold]
              rfl
            have h4' : s.hnSuccesses = 0 := by
              rw [hsucc] at h4
              simp at h4
              omega
            apply ReqInv_unref
            · by_cases hcr : s.creatorRef = true <;> simp [hcr] at h1 ⊢ <;> omega
            · intro hx
              rw [hsu] at hx
              exact Bool.noConfusion hx
            · intro _ hy
              exact absurd hy herrne
            · rw [hsu]
              simp [hst, h4']
            · rw [hslot, hsu, h5]
              exact hsucc
            · rw [hoff]
              exact h6
            · exact h7
          · have hsucc' : s.core.success = true := by
              revert hsucc
              cases s.core.success <;> simp
            have hfold := hn_core_fail_succ s.core hr status he hst hsucc'
            apply ReqInv_unref
            · by_cases hcr : s.creatorRef = true <;> simp [hcr] at h1 ⊢ <;> omega
            · simp only [hfold]
              exact h2
            · intro hx _
              rw [hfold, hsucc'] at hx
              exact Bool.noConfusion hx
            · simp only [hfold]
              simpa [hst] using h4
            · simp only [hfold]
              exact h5
            · simp only [hfold]
              exact h6
            · exact h7
  | srvDone idx status parse v6 =>
    cases hq : s.outstanding[idx]? with
    | none =>
      simp only [stepEvent, hq] at hstep
      exact Option.noConfusion hstep
    | some q =>
      cases q with
      | hostname fam hr =>
        simp only [stepEvent, hq] at hstep
        exact Option.noConfusion hstep
      | srv nm =>
        simp only [stepEvent, hq, Option.some.injEq] at hstep
        subst hstep
        have hl := length_eraseIdx_getElem s.outstanding idx _ hq
        have hcnt := countP_eraseIdx_getElem QueryKind.isHostname s.outstanding idx _ hq rfl
        have hpne : ¬s.pending = 0 := by
          by_cases hcr : s.creatorRef = true <;> simp [hcr] at h1 <;> omega
        rw [if_neg hpne] at h7
        by_cases hst : status = ARES_SUCCESS
        · subst hst
          have hrr : (on_srv_query_done_core s.core v6 ARES_SUCCESS parse).r = s.core := by
            rw [srv_core_of_success]
          apply ReqInv_unref
          · rw [foldl_issueQuery_pending, foldl_issueQuery_outstanding,
              foldl_issueQuery_creatorRef]
            simp only [List.length_append]
            by_cases hcr : s.creatorRef = true <;> simp [hcr] at h1 ⊢ <;> omega
          · rw [foldl_issueQuery_core]
            simp only [hrr]
            exact h2
          · rw [foldl_issueQuery_core, foldl_issueQuery_outstanding]
            simp only [hrr]
            intro hx hy
            have hbase := h3 hx hy
            simp only [List.countP_append]
            omega
          · rw [foldl_issueQuery_core, foldl_issueQuery_hnSuccesses]
            simp only [hrr]
            exact h4
          · rw [foldl_issueQuery_core]
            simp only [hrr]
            exact h5
          · rw [foldl_issueQuery_core]
            simp only [hrr]
            exact h6
          · rw [foldl_issueQuery_onDoneCalls, foldl_issueQuery_muDestroyed,
              foldl_issueQuery_evDriverDestroyed, foldl_issueQuery_freedReq]
            exact h7
        · by_cases hsucc : s.core.success = false
          · have hfold := srv_core_fail_nosucc s.core v6 status parse hst hsucc
            have hsu : (on_srv_query_done_core s.core v6 status parse).r.success
                = false := by
              rw [hfold]
              exact hsucc
            have herrne : ¬(on_srv_query_done_core s.core v6 status parse).r.error
                = GrpcError.none := by
              rw [hfold]
              exact chain_ne_none status s.core.error
            have h4' : s.hnSuccesses = 0 := by
              rw [hsucc] at h4
              simp at h4
              omega
            apply ReqInv_unref
            · rw [foldl_issueQuery_pending, foldl_issueQuery_outstanding,
                foldl_issueQuery_creatorRef]
              simp only [List.length_append]
              by_cases hcr : s.creatorRef = true <;> simp [hcr] at h1 ⊢ <;> omega
            · rw [foldl_issueQuery_core]
              intro hx
              rw [hsu] at hx
              exact Bool.noConfusion hx
            · rw [foldl_issueQuery_core]
              intro _ hy
              exact absurd hy herrne
            · rw [foldl_issueQuery_core, foldl_issueQuery_hnSuccesses]
              rw [hsu]
              simp [h4']
            · rw [foldl_issueQuery_core]
              simp only [hfold]
              simpa [slotPopulated, hsucc] using h5
            · rw [foldl_issueQuery_core]
              simp only [hfold]
              simpa [offSlotEmpty] using h6
            · rw [foldl_issueQuery_onDoneCalls, foldl_issueQuery_muDestroyed,
                foldl_issueQuery_evDriverDestroyed, foldl_issueQuery_freedReq]
              exact h7
          · have hsucc' : s.core.success = true := by
              revert hsucc
              cases s.core.success <;> simp
            have hfold := srv_core_fail_succ s.core v6 status parse hst hsucc'
            apply ReqInv_unref
            · rw [foldl_issueQuery_pending, foldl_issueQuery_outstanding,
                foldl_issueQuery_creatorRef]
              simp only [List.length_append]
              by_cases hcr : s.creatorRef = true <;> simp [hcr] at h1 ⊢ <;> omega
            · rw [foldl_issueQuery_core]
              simp only [hfold]
              exact h2
            · rw [foldl_issueQuery_core]
              simp only [hfold]
              intro hx _
              rw [hsucc'] at hx
              exact Bool.noConfusion hx
            · rw [foldl_issueQuery_core, foldl_issueQuery_hnSuccesses]
              simp only [hfold]
              exact h4
            · rw [foldl_issueQuery_core]
              simp only [hfold]
              exact h5
            · rw [foldl_issueQuery_core]
              simp only [hfold]
              exact h6
            · rw [foldl_issueQuery_onDoneCalls, foldl_issueQuery_muDestroyed,
                foldl_issueQuery_evDriverDestroyed, foldl_issueQuery_freedReq]
              exact h7

theorem one_le_countP_initialQueries (host port : String) (lb v6 : Bool) :
    1 ≤ (initialQueries host port lb v6).countP QueryKind.isHostname := by
  by_cases hlb : lb = true <;> by_cases hv : v6 = true <;>
    simp [initialQueries, hlb, hv, List.countP_cons, List.countP_append,
      QueryKind.isHostname]

theorem ReqInv_resolveInit (host port : String) (lb v6 : Bool) :
    ReqInv (resolveInit host port lb v6) := by
  unfold resolveInit ReqInv
  rw [foldl_issueQuery_pending, foldl_issueQuery_outstanding,
    foldl_issueQuery_creatorRef, foldl_issueQuery_core, foldl_issueQuery_hnSuccesses,
    foldl_issueQuery_onDoneCalls, foldl_issueQuery_muDestroyed,
    foldl_issueQuery_evDriverDestroyed, foldl_issueQuery_freedReq]
  refine ⟨by simp; omega, by simp, ?_, by simp, by simp [slotPopulated], ?_, ?_⟩
  · intro _ _
    simpa using one_le_countP_initialQueries host port lb v6
  · by_cases hlb : lb = true <;> simp [offSlotEmpty, hlb]
  · rw [if_neg (by simp)]
    simp

theorem runEvents_inv :
    ∀ (es : List AresEvent) (s s' : ReqState), ReqInv s →
      runEvents s es = some s' → ReqInv s'
  | [], s, s', h, hrun => by
    simp only [runEvents, Option.some.injEq] at hrun
    rwa [← hrun]
  | e :: es, s, s', h, hrun => by
    simp only [runEvents] at hrun
    cases hstep : stepEvent s e with
    | none =>
      rw [hstep] at hrun
      exact Option.noConfusion hrun
    | some s1 =>
      rw [hstep] at hrun
      exact runEvents_inv es s1 s' (stepEvent_inv h hstep) hrun

theorem srvLoop_eq_flatMap (v6 : Bool) :
    ∀ (records : List SrvRecord),
      srvLoop v6 records = records.flatMap (srvLoopBody v6)
  | [] => by simp [srvLoop]
  | rec :: rest => by
    simp [srvLoop, srvLoop_eq_flatMap v6 rest]

/-- Claim C1: for every top-level resolve call, the pending-query count is
initialised to 1 for the creator plus one increment per issued sub-query
(each matched by exactly one decrement on completion, expressed by the
count always equalling the outstanding sub-queries plus the creator's
reference); `on_done` is scheduled, the mutex destroyed, the event driver
destroyed and the request freed exactly once, at the 1 → 0 transition,
which occurs only once every sub-query — including those spawned
transitively by an SRV response — has completed and the creator's reference
is released, and never before. -/
theorem claim1_refcount_lifecycle (host port : String) (lb v6 : Bool)
    (es : List AresEvent) (s' : ReqState)
    (hrun : runEvents (resolveInit host port lb v6) es = some s') :
    ((resolveInit host port lb v6).pending
        = 1 + (initialQueries host port lb v6).length
      ∧ (resolveInit host port lb v6).outstanding
        = initialQueries host port lb v6)
    ∧ s'.pending = s'.outstanding.length + (if s'.creatorRef = true then 1 else 0)
    ∧ (s'.outstanding = [] → s'.creatorRef = false →
        s'.onDoneCalls.length = 1 ∧ s'.muDestroyed = 1 ∧ s'.evDriverDestroyed = 1
          ∧ s'.freedReq = 1 ∧ s'.pending = 0)
    ∧ (¬s'.outstanding = [] ∨ s'.creatorRef = true →
        s'.onDoneCalls = [] ∧ s'.muDestroyed = 0 ∧ s'.evDriverDestroyed = 0
          ∧ s'.freedReq = 0) := by
  have hinv := runEvents_inv es _ s' (ReqInv_resolveInit host port lb v6) hrun
  obtain ⟨h1, _h2, _h3, _h4, _h5, _h6, h7⟩ := hinv
  refine ⟨⟨?_, ?_⟩, h1, ?_, ?_⟩
  · unfold resolveInit
    rw [foldl_issueQuery_pending]
  · unfold resolveInit
    rw [foldl_issueQuery_outstanding]
    simp
  · intro hout hcr
    have hp0 : s'.pending = 0 := by
      rw [h1, hout, hcr]
      simp
    rw [if_pos hp0] at h7
    refine ⟨?_, h7.2.1, h7.2.2.1, h7.2.2.2, hp0⟩
    rw [h7.1]
    rfl
  · intro hlive
    have hpne : ¬s'.pending = 0 := by
      cases hlive with
      | inl hne =>
        have hpos := List.length_pos.mpr hne
        by_cases hcr : s'.creatorRef = true <;> simp [hcr] at h1 <;> omega
      | inr hcr =>
        rw [h1, if_pos hcr]
        omega
    rw [if_neg hpne] at h7
    exact h7

/-- Witness for C1 at a concrete complete run: one IPv4 query that fails,
then the creator's release; the callback fires and the request is torn down
exactly once. -/
theorem claim1_refcount_lifecycle_witness :
    (runEvents (resolveInit "a" "80" false false)
      [AresEvent.hostnameDone 0 1 { h_addrtype := AddrFamily.inet, h_addr_list := [] },
       AresEvent.creatorUnref]).map
        (fun s => (s.onDoneCalls.length, s.muDestroyed, s.evDriverDestroyed, s.freedReq))
      = some (1, 1, 1, 1) := by
  obtain ⟨s', hrun⟩ := Option.isSome_iff_exists.mp
    (by decide :
      (runEvents (resolveInit "a" "80" false false)
        [AresEvent.hostnameDone 0 1 { h_addrtype := AddrFamily.inet, h_addr_list := [] },
         AresEvent.creatorUnref]).isSome = true)
  have h := claim1_refcount_lifecycle "a" "80" false false _ s' hrun
  have hout : s'.outstanding = [] ∧ s'.creatorRef = false := by
    have hx : (runEvents (resolveInit "a" "80" false false)
        [AresEvent.hostnameDone 0 1 { h_addrtype := AddrFamily.inet, h_addr_list := [] },
         AresEvent.creatorUnref]).map (fun s => (s.outstanding, s.creatorRef))
        = some ([], false) := by decide
    rw [hrun] at hx
    simp at hx
    exact ⟨hx.1, hx.2⟩
  have hc := h.2.2.1 hout.1 hout.2
  rw [hrun]
  simp [hc.1, hc.2.1, hc.2.2.1, hc.2.2.2.1]

/-- Claim C2: a failing completion — hostname or SRV — links the c-ares
failure into the error chain (new root over the prior chain, or sole error
if the chain was empty) exactly when the success flag is still false; a
successful hostname completion clears the accumulated error to the sentinel
and sets the success flag; the success flag is never reset by either
callback; and a failure arriving after a success leaves the state — and so
the error eventually delivered — entirely unchanged. -/
theorem claim2_error_chain_success_dominance (r : AresRequest)
    (hr : HostbynameRequest) (status : Nat) (he : Hostent)
    (parse : SrvParseOutcome) (v6 : Bool) :
    (¬status = ARES_SUCCESS → r.success = false →
      (on_hostbyname_done_core r hr status he).error
          = fold_failure_error status r.error
        ∧ (on_srv_query_done_core r v6 status parse).r.error
          = fold_failure_error status r.error)
    ∧ (¬status = ARES_SUCCESS → r.success = true →
      on_hostbyname_done_core r hr status he = r
        ∧ (on_srv_query_done_core r v6 status parse).r = r)
    ∧ (status = ARES_SUCCESS →
      (on_hostbyname_done_core r hr status he).success = true
        ∧ (on_hostbyname_done_core r hr status he).error = GrpcError.none)
    ∧ (r.success = true →
      (on_hostbyname_done_core r hr status he).success = true
        ∧ (on_srv_query_done_core r v6 status parse).r.success = true) := by
  refine ⟨?_, ?_, ?_, ?_⟩
  · intro hst hs
    rw [hn_core_fail_nosucc r hr status he hst hs,
      srv_core_fail_nosucc r v6 status parse hst hs]
    exact ⟨rfl, rfl⟩
  · intro hst hs
    rw [hn_core_fail_succ r hr status he hst hs,
      srv_core_fail_succ r v6 status parse hst hs]
    exact ⟨rfl, rfl⟩
  · intro hst
    subst hst
    exact ⟨(hn_core_success_facts r hr he).1, (hn_core_success_facts r hr he).2.1⟩
  · intro hs
    constructor
    · by_cases hst : status = ARES_SUCCESS
      · subst hst
        exact (hn_core_success_facts r hr he).1
      · rw [hn_core_fail_succ r hr status he hst hs]
        exact hs
    · by_cases hst : status = ARES_SUCCESS
      · subst hst
        rw [srv_core_of_success]
        exact hs
      · rw [srv_core_fail_succ r v6 status parse hst hs]
        exact hs

/-- Witness for C2: a failed hostname completion (status 1) on a fresh
request with an empty chain installs the c-ares error as the sole error. -/
theorem claim2_error_chain_witness :
    (on_hostbyname_done_core sampleLbRequest
        { host := "h", port := 0, is_balancer := false } 1
        { h_addrtype := AddrFamily.inet, h_addr_list := [] }).error
      = GrpcError.createFromString (ares_error_msg 1) := by
  have h := claim2_error_chain_success_dominance sampleLbRequest
    { host := "h", port := 0, is_balancer := false } 1
    { h_addrtype := AddrFamily.inet, h_addr_list := [] }
    { parse_status := 0, reply := Option.none } false
  have h1 := (h.1 (by decide) rfl).1
  rw [h1]
  rfl

/-- Claim C3: with no parseable host the resolve call fails synchronously
with "unparseable host:port" carrying the name; with a host but no port and
no default it fails synchronously with "no port in name" carrying the name;
in both cases no request is created and no query issued (the outcome is
`syncFail`, not `started`); and with no port but a default supplied, the
default string is used as the port of the created request. -/
theorem claim3_parse_failures (name h dp : String) (portOpt dpOpt : Option String)
    (drv : DriverCreate) (lb v6 : Bool) :
    resolve_address_ares_impl name Option.none portOpt dpOpt drv lb v6
      = ResolveResult.syncFail
          (GrpcError.withStr (GrpcError.createFromString "unparseable host:port")
            ErrStrKey.targetAddress name)
    ∧ resolve_address_ares_impl name (some h) Option.none Option.none drv lb v6
      = ResolveResult.syncFail
          (GrpcError.withStr (GrpcError.createFromString "no port in name")
            ErrStrKey.targetAddress name)
    ∧ resolve_address_ares_impl name (some h) Option.none (some dp)
        DriverCreate.ok lb v6
      = ResolveResult.started (resolveInit h dp lb v6) := by
  exact ⟨rfl, rfl, rfl⟩

/-- Claim C4 (evaluation at the failing input): `strhtons` maps "http" and
"https" to `htons` of 80 and 443 and other strings through `atoi` (so a
direct sub-request's port is in network byte order — the "https" query
carries `htons 443 = 47873`), but a hostname sub-request spawned from an
SRV target record stores the parser's host-byte-order port unconverted:
for a record with port 443 the spawned sub-request's port is 443, not
`htons 443`. -/
theorem claim4_srv_port_not_converted :
    strhtons "http" = htons 80
    ∧ strhtons "https" = htons 443
    ∧ strhtons "5000" = htons 5000
    ∧ strhtons "abc" = htons 0
    ∧ htons 443 = 47873
    ∧ initialQueries "h" "https" false false
        = [QueryKind.hostname AddrFamily.inet
            { host := "h", port := htons 443, is_balancer := false }]
    ∧ (on_srv_query_done_core sampleLbRequest false ARES_SUCCESS
        { parse_status := ARES_SUCCESS,
          reply := some [{ host := "b", port := 443 }] }).actions
        = [SrvAction.spawn AddrFamily.inet
            { host := "b", port := 443, is_balancer := true },
           SrvAction.startDriver]
    ∧ ¬(443 : Nat) = htons 443 := by
  decide

/-- Claim C5: only in load-balancer mode is exactly one SRV-class query
issued, for the literal name `"_grpclb._tcp." ++ host`, holding exactly one
reference on the pending count like every other issued query; on a
successfully parsed SRV response the per-record loop spawns, in parser
order, an IPv6 balancer-marked hostname sub-request iff IPv6 loopback is
available, an IPv4 balancer-marked one unconditionally, and restarts the
driver after each record rather than once at the end; a failed parse spawns
nothing and leaves the request state (so the error chain) unchanged. -/
theorem claim5_srv_discovery (host port : String) (lb v6 v6q : Bool)
    (r : AresRequest) (records : List SrvRecord) (parse : SrvParseOutcome)
    (srec : SrvRecord) :
    ((initialQueries host port true v6).filter (fun q => !q.isHostname)
        = [QueryKind.srv ("_grpclb._tcp." ++ host)])
    ∧ ((initialQueries host port false v6).filter (fun q => !q.isHostname) = [])
    ∧ (resolveInit host port lb v6).pending
        = 1 + (initialQueries host port lb v6).length
    ∧ ((on_srv_query_done_core r v6q ARES_SUCCESS
          { parse_status := ARES_SUCCESS, reply := some records }).actions
        = records.flatMap (srvLoopBody v6q))
    ∧ srvLoopBody v6q srec
        = (if v6q = true then
            [SrvAction.spawn AddrFamily.inet6
              { host := srec.host, port := srec.port, is_balancer := true }]
          else [])
          ++ [SrvAction.spawn AddrFamily.inet
                { host := srec.host, port := srec.port, is_balancer := true },
              SrvAction.startDriver]
    ∧ (¬parse.parse_status = ARES_SUCCESS →
        (on_srv_query_done_core r v6q ARES_SUCCESS parse).actions = []
        ∧ (on_srv_query_done_core r v6q ARES_SUCCESS parse).r = r) := by
  refine ⟨?_, ?_, ?_, ?_, rfl, ?_⟩
  · by_cases hv : v6 = true <;>
      simp [initialQueries, hv, QueryKind.isHostname]
  · by_cases hv : v6 = true <;>
      simp [initialQueries, hv, QueryKind.isHostname]
  · unfold resolveInit
    rw [foldl_issueQuery_pending]
  · rw [srv_core_of_success]
    simp [srvLoop_eq_flatMap]
  · intro hp
    rw [srv_core_of_success]
    exact ⟨by simp [hp], rfl⟩

/-- Witness for C5: a failed SRV parse spawns no sub-queries. -/
theorem claim5_srv_discovery_witness :
    (on_srv_query_done_core sampleLbRequest false ARES_SUCCESS
      { parse_status := 10, reply := Option.none }).actions = [] := by
  have h := claim5_srv_discovery "h" "80" false false false sampleLbRequest []
    { parse_status := 10, reply := Option.none } { host := "x", port := 1 }
  exact (h.2.2.2.2.2 (by decide)).1

/-- Claim C6: on a successful hostname completion the mode's output list is
allocated on first use and grown strictly by appending one entry per
`hostent` address, in order, to the end of the existing storage; each entry
records `sizeof(sockaddr_in)` or `sizeof(sockaddr_in6)` per the hostent's
address family, with the family and the sub-request's port stamped in; a
load-balancer entry additionally carries the sub-request's balancer flag, a
copy of its host name as the balancer name iff that flag is set, and an
always-absent user-data slot; the other mode's slot is never touched. -/
theorem claim6_result_building (r : AresRequest) (hr : HostbynameRequest)
    (he : Hostent) (fam : AddrFamily) (bytes : List Nat) :
    (r.lb_addrs_out = false →
      (on_hostbyname_done_core r hr ARES_SUCCESS he).plain_out
        = some (r.plain_out.getD []
            ++ he.h_addr_list.map (mkResolvedAddress hr he.h_addrtype))
      ∧ (on_hostbyname_done_core r hr ARES_SUCCESS he).lb_out = r.lb_out)
    ∧ (r.lb_addrs_out = true →
      (on_hostbyname_done_core r hr ARES_SUCCESS he).lb_out
        = some (r.lb_out.getD []
            ++ he.h_addr_list.map (mkLBAddress hr he.h_addrtype))
      ∧ (on_hostbyname_done_core r hr ARES_SUCCESS he).plain_out = r.plain_out)
    ∧ (mkResolvedAddress hr fam bytes).len
        = (if fam = AddrFamily.inet6 then sockaddr_in6_len else sockaddr_in_len)
    ∧ (mkResolvedAddress hr fam bytes).family = fam
    ∧ (mkResolvedAddress hr fam bytes).port = hr.port
    ∧ (mkResolvedAddress hr fam bytes).rawAddr = bytes
    ∧ (mkLBAddress hr fam bytes).len
        = (if fam = AddrFamily.inet6 then sockaddr_in6_len else sockaddr_in_len)
    ∧ (mkLBAddress hr fam bytes).family = fam
    ∧ (mkLBAddress hr fam bytes).port = hr.port
    ∧ (mkLBAddress hr fam bytes).rawAddr = bytes
    ∧ (mkLBAddress hr fam bytes).is_balancer = hr.is_balancer
    ∧ (mkLBAddress hr fam bytes).balancer_name
        = (if hr.is_balancer = true then some hr.host else Option.none)
    ∧ (mkLBAddress hr fam bytes).user_data = Option.none := by
  refine ⟨?_, ?_, ?_, ?_, ?_, ?_, ?_, ?_, ?_, ?_, ?_, ?_, ?_⟩
  · intro hlb
    constructor <;> simp [on_hostbyname_done_core, ARES_SUCCESS, hlb]
  · intro hlb
    constructor <;> simp [on_hostbyname_done_core, ARES_SUCCESS, hlb]
  all_goals
    by_cases hf : fam = AddrFamily.inet6 <;>
      simp [mkResolvedAddress, mkLBAddress, hf]

/-- Witness for C6: one IPv4 address appended on first success in plain
mode, built by the source's entry constructor. -/
theorem claim6_result_building_witness :
    (on_hostbyname_done_core
        { lb_addrs_out := false, success := false, error := GrpcError.none,
          plain_out := Option.none, lb_out := Option.none }
        { host := "w", port := 7, is_balancer := false } ARES_SUCCESS
        { h_addrtype := AddrFamily.inet, h_addr_list := [[1, 2, 3, 4]] }).plain_out
      = some [mkResolvedAddress { host := "w", port := 7, is_balancer := false }
          AddrFamily.inet [1, 2, 3, 4]] := by
  have h := claim6_result_building
    { lb_addrs_out := false, success := false, error := GrpcError.none,
      plain_out := Option.none, lb_out := Option.none }
    { host := "w", port := 7, is_balancer := false }
    { h_addrtype := AddrFamily.inet, h_addr_list := [[1, 2, 3, 4]] }
    AddrFamily.inet [1, 2, 3, 4]
  have h1 := (h.1 rfl).1
  simpa using h1

theorem isSome_false_eq_none {α : Type} (o : Option α) (h : o.isSome = false) :
    o = Option.none := by
  cases o with
  | none => rfl
  | some a => simp at h

theorem isNone_true_eq_none {α : Type} (o : Option α) (h : o.isNone = true) :
    o = Option.none := by
  cases o with
  | none => rfl
  | some a => simp at h

theorem slots_none_of_unpopulated (r : AresRequest)
    (hpop : slotPopulated r = false) (hoff : offSlotEmpty r = true) :
    r.plain_out = Option.none ∧ r.lb_out = Option.none := by
  by_cases hlb : r.lb_addrs_out = true
  · constructor
    · refine isNone_true_eq_none _ ?_
      unfold offSlotEmpty at hoff
      rwa [if_pos hlb] at hoff
    · refine isSome_false_eq_none _ ?_
      unfold slotPopulated at hpop
      rwa [if_pos hlb] at hpop
  · constructor
    · refine isSome_false_eq_none _ ?_
      unfold slotPopulated at hpop
      rwa [if_neg hlb] at hpop
    · refine isNone_true_eq_none _ ?_
      unfold offSlotEmpty at hoff
      rwa [if_neg hlb] at hoff

/-- Claim C7 (amended): when a resolve call completes, the delivered error
is the no-error sentinel iff at least one hostname sub-query completed with
`ARES_SUCCESS` — equivalently, iff the mode's output slot was populated
(possibly with zero addresses, since a successful completion may carry an
empty address list); if no hostname sub-query succeeded, every completion
was folded as a failure, the delivered error is the head of the aggregated
chain and neither output slot was ever populated. -/
theorem claim7_final_error_iff_success (host port : String) (lb v6 : Bool)
    (es : List AresEvent) (s' : ReqState)
    (hrun : runEvents (resolveInit host port lb v6) es = some s')
    (hout : s'.outstanding = []) (hcr : s'.creatorRef = false) :
    s'.onDoneCalls = [s'.core.error]
    ∧ (s'.core.error = GrpcError.none ↔ 1 ≤ s'.hnSuccesses)
    ∧ (s'.core.error = GrpcError.none ↔ slotPopulated s'.core = true)
    ∧ (s'.hnSuccesses = 0 →
        s'.core.plain_out = Option.none ∧ s'.core.lb_out = Option.none) := by
  have hinv := runEvents_inv es _ s' (ReqInv_resolveInit host port lb v6) hrun
  obtain ⟨h1, h2, h3, h4, h5, h6, h7⟩ := hinv
  have hp0 : s'.pending = 0 := by
    rw [h1, hout, hcr]
    simp
  rw [if_pos hp0] at h7
  have hsucc_iff : s'.core.error = GrpcError.none ↔ s'.core.success = true := by
    constructor
    · intro he
      by_cases hs : s'.core.success = true
      · exact hs
      · have hs' : s'.core.success = false := by
          revert hs
          cases s'.core.success <;> simp
        have hc := h3 hs' he
        rw [hout] at hc
        simp at hc
    · exact h2
  refine ⟨h7.1, ?_, ?_, ?_⟩
  · rw [hsucc_iff]
    exact h4
  · rw [hsucc_iff, h5]
  · intro hz
    have hsf : s'.core.success = false := by
      by_cases hs : s'.core.success = true
      · exact absurd (h4.mp hs) (by omega)
      · revert hs
        cases s'.core.success <;> simp
    have hpop : slotPopulated s'.core = false := by
      rw [h5, hsf]
    exact slots_none_of_unpopulated s'.core hpop h6

/-- Witness for C7 at a concrete total-failure run: the delivered error is
the c-ares failure and the output slot stays `NULL`. -/
theorem claim7_final_error_witness :
    (runEvents (resolveInit "b" "81" false false)
      [AresEvent.hostnameDone 0 4 { h_addrtype := AddrFamily.inet, h_addr_list := [] },
       AresEvent.creatorUnref]).map
        (fun s => (s.onDoneCalls, s.core.plain_out))
      = some ([GrpcError.createFromString (ares_error_msg 4)],
          (Option.none : Option (List ResolvedAddress))) := by
  obtain ⟨s', hrun⟩ := Option.isSome_iff_exists.mp
    (by decide :
      (runEvents (resolveInit "b" "81" false false)
        [AresEvent.hostnameDone 0 4 { h_addrtype := AddrFamily.inet, h_addr_list := [] },
         AresEvent.creatorUnref]).isSome = true)
  have hfacts : s'.outstanding = [] ∧ s'.creatorRef = false
      ∧ s'.core.error = GrpcError.createFromString (ares_error_msg 4)
      ∧ s'.hnSuccesses = 0 := by
    have hx : (runEvents (resolveInit "b" "81" false false)
        [AresEvent.hostnameDone 0 4 { h_addrtype := AddrFamily.inet, h_addr_list := [] },
         AresEvent.creatorUnref]).map
          (fun s => (s.outstanding, s.creatorRef, s.core.error, s.hnSuccesses))
        = some ([], false, GrpcError.createFromString (ares_error_msg 4), 0) := by
      decide
    rw [hrun] at hx
    simp at hx
    exact ⟨hx.1, hx.2.1, hx.2.2.1, hx.2.2.2⟩
  have h := claim7_final_error_iff_success "b" "81" false false _ s' hrun
    hfacts.1 hfacts.2.1
  have hplain := (h.2.2.2 hfacts.2.2.2).1
  rw [hrun]
  simp [h.1, hfacts.2.2.1, hplain]

/-- Counterexample to C7 as stated: a hostname sub-query can complete with
`ARES_SUCCESS` and an empty address list; the completed run then delivers
the no-error sentinel although zero addresses were resolved (the populated
slot holds the empty list), so "no-error iff at least one address was
resolved" fails. -/
theorem claim7_counterexample :
    (runEvents (resolveInit "c" "82" false false)
      [AresEvent.hostnameDone 0 ARES_SUCCESS
        { h_addrtype := AddrFamily.inet, h_addr_list := [] },
       AresEvent.creatorUnref]).map
        (fun s => (s.onDoneCalls, s.core.plain_out))
      = some ([GrpcError.none], some ([] : List ResolvedAddress)) := by
  decide

/-- Claim C8 (amended): the caller's completion callback is invoked exactly
once per resolve call on every path except driver-creation failure:
synchronously for the two parse failures, and at the pending count's
transition to zero for a started request; when creation of the event driver
fails, the error is only logged and the callback is never invoked (zero
invocations). -/
theorem claim8_callback_once_except_driver_failure (name h p dp : String)
    (portOpt dpOpt : Option String) (e0 : GrpcError) (drv : DriverCreate)
    (lb v6 : Bool) (es : List AresEvent) (s' : ReqState) :
    resolveCallbackTotal
        (resolve_address_ares_impl name Option.none portOpt dpOpt drv lb v6) es
      = some 1
    ∧ resolveCallbackTotal
        (resolve_address_ares_impl name (some h) Option.none Option.none drv lb v6)
        es
      = some 1
    ∧ resolveCallbackTotal
        (resolve_address_ares_impl name (some h) (some p) dpOpt
          (DriverCreate.fail e0) lb v6) es
      = some 0
    ∧ resolveCallbackTotal
        (resolve_address_ares_impl name (some h) Option.none (some dp)
          (DriverCreate.fail e0) lb v6) es
      = some 0
    ∧ (runEvents (resolveInit h p lb v6) es = some s' →
        s'.outstanding = [] → s'.creatorRef = false →
        resolveCallbackTotal
          (resolve_address_ares_impl name (some h) (some p) dpOpt
            DriverCreate.ok lb v6) es
        = some 1) := by
  refine ⟨rfl, rfl, rfl, rfl, ?_⟩
  intro hrun hout hcr
  have hinv := runEvents_inv es _ s' (ReqInv_resolveInit h p lb v6) hrun
  obtain ⟨h1, _h2, _h3, _h4, _h5, _h6, h7⟩ := hinv
  have hp0 : s'.pending = 0 := by
    rw [h1, hout, hcr]
    simp
  rw [if_pos hp0] at h7
  show (runEvents (resolveInit h p lb v6) es).map (fun t => t.onDoneCalls.length)
    = some 1
  rw [hrun]
  simp [h7.1]

/-- Witness for C8 at a concrete started, completed run: exactly one
callback invocation. -/
theorem claim8_callback_once_witness :
    resolveCallbackTotal
      (resolve_address_ares_impl "d:83" (some "d") (some "83") Option.none
        DriverCreate.ok false false)
      [AresEvent.hostnameDone 0 2 { h_addrtype := AddrFamily.inet, h_addr_list := [] },
       AresEvent.creatorUnref]
      = some 1 := by
  obtain ⟨s', hrun⟩ := Option.isSome_iff_exists.mp
    (by decide :
      (runEvents (resolveInit "d" "83" false false)
        [AresEvent.hostnameDone 0 2 { h_addrtype := AddrFamily.inet, h_addr_list := [] },
         AresEvent.creatorUnref]).isSome = true)
  have hfacts : s'.outstanding = [] ∧ s'.creatorRef = false := by
    have hx : (runEvents (resolveInit "d" "83" false false)
        [AresEvent.hostnameDone 0 2 { h_addrtype := AddrFamily.inet, h_addr_list := [] },
         AresEvent.creatorUnref]).map (fun s => (s.outstanding, s.creatorRef))
        = some ([], false) := by decide
    rw [hrun] at hx
    simp at hx
    exact ⟨hx.1, hx.2⟩
  exact (claim8_callback_once_except_driver_failure "d:83" "d" "83" "x"
    Option.none Option.none GrpcError.none DriverCreate.ok false false _ s').2.2.2.2
    hrun hfacts.1 hfacts.2

/-- Counterexample to C8 as stated: when driver creation fails, the resolve
call aborts after logging and the completion callback is never invoked —
zero invocations, not exactly one. -/
theorem claim8_counterexample :
    resolve_address_ares_impl "e:84" (some "e") (some "84") Option.none
        (DriverCreate.fail (GrpcError.createFromString "ev driver create failed"))
        false false
      = ResolveResult.aborted
    ∧ resolveCallbackTotal
        (resolve_address_ares_impl "e:84" (some "e") (some "84") Option.none
          (DriverCreate.fail (GrpcError.createFromString "ev driver create failed"))
          false false) []
      = some 0
    ∧ ¬(some 0 : Option Nat) = some 1 := by
  exact ⟨rfl, rfl, by simp⟩

/-- Claim C9 (evaluation): every access to the guarded `success` and
`error` fields in `on_hostbyname_done_cb` happens between its
`gpr_mu_lock` and `gpr_mu_unlock`, on every path; but
`on_srv_query_done_cb` acquires no mutex at all, and on its failure path it
reads `success` (and, when that is false, reads and writes `error`) with no
lock held. -/
theorem claim9_mutex_discipline :
    (∀ b1 b2 : Bool, lockOk 0 (on_hostbyname_done_actions b1 b2) = true)
    ∧ (∀ b2 : Bool, lockOk 0 (on_srv_query_done_actions false b2) = false) := by
  constructor
  · intro b1 b2
    cases b1 <;> cases b2 <;> rfl
  · intro b2
    cases b2 <;> rfl

/-- Claim C10: in the SRV completion callback, `ares_free_data` receives the
parsed-reply holder only when the query succeeded — the only paths on which
parsing was attempted — and then receives exactly the value the parser
assigned, so the release is skipped whenever the parser assigned `NULL` and
on the whole query-failure branch, where the holder is never read. -/
theorem claim10_reply_free_guard (r : AresRequest) (v6 : Bool) (status : Nat)
    (parse : SrvParseOutcome) :
    (¬status = ARES_SUCCESS →
      (on_srv_query_done_core r v6 status parse).freed = Option.none)
    ∧ (status = ARES_SUCCESS →
      (on_srv_query_done_core r v6 status parse).freed = parse.reply)
    ∧ (parse.reply = Option.none →
      (on_srv_query_done_core r v6 status parse).freed = Option.none) := by
  refine ⟨?_, ?_, ?_⟩
  · intro hst
    by_cases hs : r.success = false
    · rw [srv_core_fail_nosucc r v6 status parse hst hs]
    · have hs' : r.success = true := by
        revert hs
        cases r.success <;> simp
      rw [srv_core_fail_succ r v6 status parse hst hs']
  · intro hst
    subst hst
    rw [srv_core_of_success]
    cases parse.reply <;> simp
  · intro hn
    by_cases hst : status = ARES_SUCCESS
    · subst hst
      rw [srv_core_of_success]
      simp [hn]
    · by_cases hs : r.success = false
      · rw [srv_core_fail_nosucc r v6 status parse hst hs]
      · have hs' : r.success = true := by
          revert hs
          cases r.success <;> simp
        rw [srv_core_fail_succ r v6 status parse hst hs']

/-- Witness for C10: on a failed query the holder is never passed to the
release function, whatever garbage value the uninitialised variable would
have held. -/
theorem claim10_reply_free_witness :
    (on_srv_query_done_core sampleLbRequest true 5
      { parse_status := 9, reply := some [{ host := "t", port := 1 }] }).freed
      = Option.none := by
  have h := claim10_reply_free_guard sampleLbRequest true 5
    { parse_status := 9, reply := some [{ host := "t", port := 1 }] }
  exact h.1 (by decide)
